import Mathlib

/-!
# Verification of the healthkit-mcp retry-driven NLQ-to-SQL engine

Shallow embedding of the repository's components:

* the Retry Controller `execute_with_retry` (modelled from the spec: its
  source file `query_executor.py` is not among the repository files, only
  its callers in `server.py` are),
* the attempt logger `log_attempt` (`query_logger.py`),
* the semantic layer `_get_data_source` / `build_semantic_context` /
  `format_context_for_prompt` (`semantic_layer.py`),
* the MCP server glue `_format_result`, startup context building and the
  `query_data` / `query_logs` tools (`server.py`).

Database effects (duckdb connections, query execution) are modelled by
explicit oracles and an event trace recording every connection open/close,
so that resource-leak properties are statable.
-/

namespace HealthkitMcp

/-! ## Part 1: the Retry Controller, modelled from the spec

`query_executor.py` is not part of the given sources, so the controller is
modelled from the spec's §4.1 state-machine description: attempt_number
starts at 1; GENERATE invokes the generator with the accumulated error
feedback; on generation success EXECUTE runs the candidate SQL; an
execution success is terminal SUCCESS; any failure appends its message to
`errors`, logs the attempt, and goes to the retry-or-fail decision: if
`attempt_number > max_retries` terminate with FAILURE, else increment
`attempt_number` and return to GENERATE.  `log_attempt` is invoked once per
iteration; its failure is caught and discarded.  Token counts accumulate
across attempts; `elapsed_ms` is read from a clock oracle at each attempt's
resolution. -/

/-- Successful output of the SQL Generator capability for one attempt:
candidate SQL plus this attempt's token usage. -/
structure GenOk where
  sql : String
  inputTokens : Nat
  outputTokens : Nat
  deriving Repr, DecidableEq

/-- Outcome of one SQL Generator invocation: a candidate or a failure
message (network/timeout etc., treated as retryable). -/
inductive GenOutcome where
  | ok (g : GenOk)
  | err (msg : String)
  deriving Repr, DecidableEq

/-- Successful output of the SQL Executor capability: columns, row tuples,
row count and measured execution time. -/
structure ExecOk where
  columns : List String
  rows : List (List String)
  rowCount : Nat
  timeMs : Nat
  deriving Repr, DecidableEq

/-- Outcome of one SQL Executor invocation. -/
inductive ExecOutcome where
  | ok (e : ExecOk)
  | err (msg : String) (timeMs : Nat)
  deriving Repr, DecidableEq

/-- Whether an executor outcome is a failure. -/
def ExecOutcome.isErr : ExecOutcome → Bool
  | .ok _ => false
  | .err _ _ => true

/-- The aggregate result the Retry Controller returns to its caller
(spec §3). -/
structure CallResult where
  success : Bool
  columns : List String
  rows : List (List String)
  row_count : Nat
  sql : String
  retry_count : Nat
  errors : List String
  input_tokens : Nat
  output_tokens : Nat
  elapsed_ms : Nat
  deriving Repr, DecidableEq

/-- One audit record handed to the Attempt Logger for one iteration.
`logWriteOk` records whether the logger's own write succeeded; the
controller catches a failed write and continues. -/
structure LogRecord where
  attempt_number : Nat
  sql : String
  success : Bool
  error_message : Option String
  row_count : Option Nat
  logWriteOk : Bool
  deriving Repr, DecidableEq

/-- The external capabilities the controller calls, as oracles indexed by
attempt number: the generator (given the prior attempt's error feedback),
the executor (given the candidate SQL), whether the audit-log write fails
on that iteration, and the wall clock at that attempt's resolution. -/
structure Oracles where
  gen : Nat → Option String → GenOutcome
  exec : Nat → String → ExecOutcome
  logFails : Nat → Bool
  clock : Nat → Nat

/-- Modelled from the spec: the error feedback composed for the next
generation attempt, describing the failed SQL and the error text. -/
def mkFeedback (sql msg : String) : String :=
  "SQL: " ++ sql ++ "\nError: " ++ msg

/-- Modelled from the spec: the retry loop of `execute_with_retry`
(`query_executor.py`, absent from the sources).  Arguments carry the
state-machine registers: current `attemptNumber`, pending `feedback`,
accumulated `errors`, token accumulators, and the last candidate SQL.
Returns the final `CallResult` together with the list of audit records
logged, one per iteration. -/
def retryGo (o : Oracles) (maxRetries : Nat) (attemptNumber : Nat)
    (feedback : Option String) (errors : List String)
    (inTok outTok : Nat) (lastSql : String) :
    CallResult × List LogRecord :=
  match o.gen attemptNumber feedback with
  | .err msg =>
      if h : attemptNumber > maxRetries then
        ({ success := false, columns := [], rows := [], row_count := 0,
           sql := lastSql, retry_count := attemptNumber - 1,
           errors := errors ++ [msg],
           input_tokens := inTok, output_tokens := outTok,
           elapsed_ms := o.clock attemptNumber },
         [{ attempt_number := attemptNumber, sql := "", success := false,
            error_message := some msg, row_count := none,
            logWriteOk := !(o.logFails attemptNumber) }])
      else
        let r := retryGo o maxRetries (attemptNumber + 1)
          (some (mkFeedback "" msg)) (errors ++ [msg]) inTok outTok lastSql
        (r.1,
         { attempt_number := attemptNumber, sql := "", success := false,
           error_message := some msg, row_count := none,
           logWriteOk := !(o.logFails attemptNumber) } :: r.2)
  | .ok g =>
      match o.exec attemptNumber g.sql with
      | .ok e =>
          ({ success := true, columns := e.columns, rows := e.rows,
             row_count := e.rowCount, sql := g.sql,
             retry_count := attemptNumber - 1, errors := errors,
             input_tokens := inTok + g.inputTokens,
             output_tokens := outTok + g.outputTokens,
             elapsed_ms := o.clock attemptNumber },
           [{ attempt_number := attemptNumber, sql := g.sql, success := true,
              error_message := none, row_count := some e.rowCount,
              logWriteOk := !(o.logFails attemptNumber) }])
      | .err msg _t =>
          if h : attemptNumber > maxRetries then
            ({ success := false, columns := [], rows := [], row_count := 0,
               sql := g.sql, retry_count := attemptNumber - 1,
               errors := errors ++ [msg],
               input_tokens := inTok + g.inputTokens,
               output_tokens := outTok + g.outputTokens,
               elapsed_ms := o.clock attemptNumber },
             [{ attempt_number := attemptNumber, sql := g.sql, success := false,
                error_message := some msg, row_count := none,
                logWriteOk := !(o.logFails attemptNumber) }])
          else
            let r := retryGo o maxRetries (attemptNumber + 1)
              (some (mkFeedback g.sql msg)) (errors ++ [msg])
              (inTok + g.inputTokens) (outTok + g.outputTokens) g.sql
            (r.1,
             { attempt_number := attemptNumber, sql := g.sql, success := false,
               error_message := some msg, row_count := none,
               logWriteOk := !(o.logFails attemptNumber) } :: r.2)
  termination_by maxRetries + 1 - attemptNumber
  decreasing_by
  · omega
  · omega

/-- Modelled from the spec: `execute_with_retry` starts the loop at
attempt 1 with no feedback, empty error history, zero accumulators. -/
def execute_with_retry (o : Oracles) (maxRetries : Nat) :
    CallResult × List LogRecord :=
  retryGo o maxRetries 1 none [] 0 0 ""

/-- The same oracles with the attempt-logger failure pattern replaced. -/
def withLog (o : Oracles) (f : Nat → Bool) : Oracles :=
  { o with logFails := f }

/-- A generator/executor pair where generation always yields a fixed
candidate and execution always fails: used to exercise budget exhaustion. -/
def allFailOracle : Oracles :=
  { gen := fun _ _ => .ok { sql := "SELECT 1", inputTokens := 10, outputTokens := 2 },
    exec := fun _ _ => .err "Binder Error: column x not found" 7,
    logFails := fun _ => false,
    clock := fun n => 100 * n }

theorem retryGo_result_log_indep (o : Oracles) (maxRetries : Nat)
    (attemptNumber : Nat) (feedback : Option String) (errors : List String)
    (inTok outTok : Nat) (lastSql : String) (f : Nat → Bool) :
    (retryGo o maxRetries attemptNumber feedback errors inTok outTok lastSql).1
      = (retryGo (withLog o f) maxRetries attemptNumber feedback errors
          inTok outTok lastSql).1 := by
  induction attemptNumber, feedback, errors, inTok, outTok, lastSql
    using retryGo.induct o maxRetries with
  | case1 a fb errs it ot ls msg hgen hgt =>
      rw [retryGo, retryGo]
      simp only [withLog, hgen]
      rw [dif_pos hgt, dif_pos hgt]
  | case2 a fb errs it ot ls msg hgen hle ih =>
      rw [retryGo, retryGo]
      simp only [withLog, hgen]
      rw [dif_neg hle, dif_neg hle]
      exact ih
  | case3 a fb errs it ot ls g hgen e hexec =>
      rw [retryGo, retryGo]
      simp only [withLog, hgen, hexec]
  | case4 a fb errs it ot ls g hgen msg t hexec hgt =>
      rw [retryGo, retryGo]
      simp only [withLog, hgen, hexec]
      rw [dif_pos hgt, dif_pos hgt]
  | case5 a fb errs it ot ls g hgen msg t hexec hle ih =>
      rw [retryGo, retryGo]
      simp only [withLog, hgen, hexec]
      rw [dif_neg hle, dif_neg hle]
      exact ih

theorem retryGo_logs_len (o : Oracles) (maxRetries : Nat)
    (attemptNumber : Nat) (feedback : Option String) (errors : List String)
    (inTok outTok : Nat) (lastSql : String) :
    1 ≤ (retryGo o maxRetries attemptNumber feedback errors inTok outTok lastSql).2.length
      ∧ (retryGo o maxRetries attemptNumber feedback errors inTok outTok lastSql).2.length
          ≤ maxRetries + 1 - attemptNumber + 1 := by
  induction attemptNumber, feedback, errors, inTok, outTok, lastSql
    using retryGo.induct o maxRetries with
  | case1 a fb errs it ot ls msg hgen hgt =>
      rw [retryGo]; simp only [hgen]
      rw [dif_pos hgt]
      simp
  | case2 a fb errs it ot ls msg hgen hle ih =>
      rw [retryGo]; simp only [hgen]
      rw [dif_neg hle]
      simp only [List.length_cons]
      omega
  | case3 a fb errs it ot ls g hgen e hexec =>
      rw [retryGo]; simp only [hgen, hexec]
      simp
  | case4 a fb errs it ot ls g hgen msg t hexec hgt =>
      rw [retryGo]; simp only [hgen, hexec]
      rw [dif_pos hgt]
      simp
  | case5 a fb errs it ot ls g hgen msg t hexec hle ih =>
      rw [retryGo]; simp only [hgen, hexec]
      rw [dif_neg hle]
      simp only [List.length_cons]
      omega

theorem retryGo_errors_invariant (o : Oracles) (maxRetries : Nat)
    (attemptNumber : Nat) (feedback : Option String) (errors : List String)
    (inTok outTok : Nat) (lastSql : String)
    (hlen : errors.length + 1 = attemptNumber) :
    (((retryGo o maxRetries attemptNumber feedback errors inTok outTok lastSql).1.errors.length
        = if (retryGo o maxRetries attemptNumber feedback errors inTok outTok lastSql).1.success
          then (retryGo o maxRetries attemptNumber feedback errors inTok outTok lastSql).1.retry_count
          else (retryGo o maxRetries attemptNumber feedback errors inTok outTok lastSql).1.retry_count + 1)
      ∧ (retryGo o maxRetries attemptNumber feedback errors inTok outTok lastSql).1.retry_count + 1
          = (attemptNumber - 1)
            + (retryGo o maxRetries attemptNumber feedback errors inTok outTok lastSql).2.length) := by
  induction attemptNumber, feedback, errors, inTok, outTok, lastSql
    using retryGo.induct o maxRetries with
  | case1 a fb errs it ot ls msg hgen hgt =>
      rw [retryGo]; simp only [hgen]
      rw [dif_pos hgt]
      refine ⟨?_, ?_⟩ <;> simp <;> omega
  | case2 a fb errs it ot ls msg hgen hle ih =>
      rw [retryGo]; simp only [hgen]
      rw [dif_neg hle]
      have ih' := ih (by simp; omega)
      refine ⟨ih'.1, ?_⟩
      have h2 := ih'.2
      simp only [List.length_cons]
      omega
  | case3 a fb errs it ot ls g hgen e hexec =>
      rw [retryGo]; simp only [hgen, hexec]
      refine ⟨?_, ?_⟩ <;> simp <;> omega
  | case4 a fb errs it ot ls g hgen msg t hexec hgt =>
      rw [retryGo]; simp only [hgen, hexec]
      rw [dif_pos hgt]
      refine ⟨?_, ?_⟩ <;> simp <;> omega
  | case5 a fb errs it ot ls g hgen msg t hexec hle ih =>
      rw [retryGo]; simp only [hgen, hexec]
      rw [dif_neg hle]
      have ih' := ih (by simp; omega)
      refine ⟨ih'.1, ?_⟩
      have h2 := ih'.2
      simp only [List.length_cons]
      omega

theorem retryGo_allfail_success_false (o : Oracles) (maxRetries : Nat)
    (hx : ∀ n sql, (o.exec n sql).isErr = true)
    (attemptNumber : Nat) (feedback : Option String) (errors : List String)
    (inTok outTok : Nat) (lastSql : String) :
    (retryGo o maxRetries attemptNumber feedback errors inTok outTok lastSql).1.success
      = false := by
  induction attemptNumber, feedback, errors, inTok, outTok, lastSql
    using retryGo.induct o maxRetries with
  | case1 a fb errs it ot ls msg hgen hgt =>
      rw [retryGo]; simp only [hgen]
      rw [dif_pos hgt]
  | case2 a fb errs it ot ls msg hgen hle ih =>
      rw [retryGo]; simp only [hgen]
      rw [dif_neg hle]
      exact ih
  | case3 a fb errs it ot ls g hgen e hexec =>
      have := hx a g.sql
      rw [hexec] at this
      simp [ExecOutcome.isErr] at this
  | case4 a fb errs it ot ls g hgen msg t hexec hgt =>
      rw [retryGo]; simp only [hgen, hexec]
      rw [dif_pos hgt]
  | case5 a fb errs it ot ls g hgen msg t hexec hle ih =>
      rw [retryGo]; simp only [hgen, hexec]
      rw [dif_neg hle]
      exact ih

/-- C1: a failure of the attempt-logging capability on any iteration never
aborts the call and never propagates: the controller's `CallResult` is
exactly the one produced with an always-succeeding logger, whatever the
logger-failure pattern `f` is. -/
theorem logger_failure_never_alters_result (o : Oracles) (maxRetries : Nat)
    (f : Nat → Bool) :
    ((execute_with_retry (withLog o f) maxRetries).1
        = (execute_with_retry (withLog o (fun _ => false)) maxRetries).1) := by
  have h1 := retryGo_result_log_indep o maxRetries 1 none [] 0 0 "" f
  have h2 := retryGo_result_log_indep o maxRetries 1 none [] 0 0 "" (fun _ => false)
  unfold execute_with_retry
  rw [← h1, ← h2]

/-- C2: every call performs at least 1 and at most `max_retries + 1`
attempts (one audit record is produced per iteration, so the number of
records is the number of attempts); with `max_retries = 0` exactly one
attempt is performed. -/
theorem attempt_count_bounds (o : Oracles) (maxRetries : Nat) :
    (1 ≤ (execute_with_retry o maxRetries).2.length
      ∧ (execute_with_retry o maxRetries).2.length ≤ maxRetries + 1
      ∧ (execute_with_retry o 0).2.length = 1) := by
  have h := retryGo_logs_len o maxRetries 1 none [] 0 0 ""
  have h0 := retryGo_logs_len o 0 1 none [] 0 0 ""
  unfold execute_with_retry
  refine ⟨h.1, ?_, ?_⟩
  · have := h.2; omega
  · have := h0.1; have := h0.2; omega

/-- C3: budget exhaustion is communicated through the returned
`CallResult` as `success = false`, not by throwing: when every execution
fails, the (total, never-throwing) controller still returns, with
`success = false`. -/
theorem budget_exhaustion_reported_in_result (o : Oracles) (maxRetries : Nat)
    (hx : ∀ n sql, (o.exec n sql).isErr = true) :
    (execute_with_retry o maxRetries).1.success = false :=
  retryGo_allfail_success_false o maxRetries hx 1 none [] 0 0 ""

/-- C3 witness: with an executor that always fails and `max_retries = 1`,
the call returns `success = false`. -/
theorem budget_exhaustion_reported_in_result_witness :
    (execute_with_retry allFailOracle 1).1.success = false :=
  budget_exhaustion_reported_in_result allFailOracle 1 (fun _ _ => rfl)

/-- C4: the error history's length equals `retry_count` on success and
`retry_count + 1` on total failure, where `retry_count` is the final
attempt number minus 1 (the number of attempts is the number of audit
records, one per iteration). -/
theorem errors_length_invariant (o : Oracles) (maxRetries : Nat) :
    (((execute_with_retry o maxRetries).1.errors.length
        = if (execute_with_retry o maxRetries).1.success
          then (execute_with_retry o maxRetries).1.retry_count
          else (execute_with_retry o maxRetries).1.retry_count + 1)
      ∧ (execute_with_retry o maxRetries).1.retry_count + 1
          = (execute_with_retry o maxRetries).2.length) := by
  have h := retryGo_errors_invariant o maxRetries 1 none [] 0 0 "" (by simp)
  unfold execute_with_retry
  exact ⟨h.1, by have := h.2; omega⟩

/-! ## Part 2: database world, connection traces, and the semantic layer

The duckdb effects of `semantic_layer.py` and `query_logger.py` are
modelled by oracles (one per `con.execute` call site) and every
`duckdb.connect` / `con.close()` is recorded in an event trace, so that
connection-leak properties are statable. -/

/-- A connection lifecycle event: `duckdb.connect` / `con.close()`. -/
inductive DbEvent where
  | openConn (id : Nat)
  | closeConn (id : Nat)
  deriving Repr, DecidableEq

/-- Connection ids opened in a trace but never closed in it. -/
def leakedConns (evs : List DbEvent) : List Nat :=
  (evs.filterMap fun e =>
    match e with
    | .openConn i => some i
    | .closeConn _ => none).filter
    (fun i => !(evs.contains (DbEvent.closeConn i)))

/-- A duckdb cell value as `semantic_layer.py` handles it when rendering
sample rows: `None`, a string, or any other value rendered via `str()`
(modelled by integers). -/
inductive DbValue where
  | null
  | str (s : String)
  | int (n : Int)
  deriving Repr, DecidableEq

/-- Behaviour of the database behind one connection of the semantic layer:
the result of `SHOW TABLES`, of `DESCRIBE SELECT * FROM <target>` (rows as
(column name, column type)), and of `con.execute` on any other query text
(description column names and fetched rows).  `Except.error` models the
call raising. -/
structure DbWorld where
  showTables : Except String (List String)
  describeRows : String → Except String (List (String × String))
  runQuery : String → Except String (List String × List (List DbValue))

/-- The `database` section of a tool config (`semantic_layer.py` reads it
with `.get(key, "")`, so an absent key is the empty string). -/
structure DbConfig where
  table_name : String
  db_path : String
  parquet_path : String
  deriving Repr, DecidableEq

/-- One entry of `semantic_layer.auto_queries`: a bare query string
(legacy) or a dict with `query` and optional `label`. -/
inductive AutoQueryConfig where
  | str (query : String)
  | dict (query : String) (label : Option String)
  deriving Repr, DecidableEq

/-- The query template of an auto-query config entry. -/
def AutoQueryConfig.query : AutoQueryConfig → String
  | .str q => q
  | .dict q _ => q

/-- The label of an auto-query config entry (`None` for the legacy string
form or an absent `label` key). -/
def AutoQueryConfig.label : AutoQueryConfig → Option String
  | .str _ => none
  | .dict _ l => l

/-- A tool-specific config section (e.g. `config["data_query"]`): the
fields of it that `semantic_layer.py` reads. -/
structure ToolConfig where
  database : DbConfig
  auto_queries : List AutoQueryConfig
  static_context : List String
  hint_style : Option String
  deriving Repr, DecidableEq

/-- Embedding of `_get_data_source` (`semantic_layer.py:16-62`): picks the
db-file or parquet mode, opens one connection (id 0, recorded in the
trace), auto-discovers the table when `table_name` is absent, and returns
`(connection, query_target, table_name)`; `Except.error` models the
`ValueError`s it raises.  Note the trace of each error path: the
connection opened beforehand is not closed. -/
def _get_data_source (w : DbWorld) (tool_config : ToolConfig) :
    Except String (Nat × String × String) × List DbEvent :=
  let table_name := tool_config.database.table_name
  if tool_config.database.db_path ≠ "" then
    -- con = duckdb.connect(str(db_path))
    if table_name = "" then
      match w.showTables with
      | .error e => (.error e, [DbEvent.openConn 0])
      | .ok tables =>
          if tables.length = 1 then
            (.ok (0, tables.headI, tables.headI), [DbEvent.openConn 0])
          else if tables.length = 0 then
            (.error ("No tables found in database: " ++ tool_config.database.db_path),
             [DbEvent.openConn 0])
          else
            (.error ("Multiple tables found, specify table_name in config: "
                ++ String.intercalate ", " tables),
             [DbEvent.openConn 0])
    else
      (.ok (0, table_name, table_name), [DbEvent.openConn 0])
  else if tool_config.database.parquet_path ≠ "" then
    -- con = duckdb.connect(); table_name = table_name or "data"
    (.ok (0, "\x27" ++ tool_config.database.parquet_path ++ "\x27",
          if table_name = "" then "data" else table_name),
     [DbEvent.openConn 0])
  else
    (.error "Tool config must specify either db_path or parquet_path in database section",
     [])

/-- The DDL text `build_semantic_context` assembles from the DESCRIBE
rows: `CREATE TABLE <name> (` then one indented line per column with a
comma after every column but the last, then `);`, joined by newlines. -/
def buildDDL (table_name : String) (columns : List (String × String)) : String :=
  String.intercalate "\n"
    (["CREATE TABLE " ++ table_name ++ " ("]
      ++ (columns.enum.map fun p =>
            "    " ++ p.2.1 ++ " " ++ p.2.2
              ++ (if p.1 < columns.length - 1 then "," else ""))
      ++ [");"])

/-- The placeholder substitution applied to an auto-query template:
`{query_target}`, `{table_name}`, and the legacy `{parquet_path}` (also
replaced by the query target). -/
def substPlaceholders (template query_target table_name : String) : String :=
  ((template.replace "{query_target}" query_target).replace
      "{table_name}" table_name).replace "{parquet_path}" query_target

/-- One entry of `context["auto_query_results"]`: columns and rows on
success of the substituted query, or the error string when `con.execute`
raised (caught by `build_semantic_context`). -/
inductive AutoQueryResult where
  | ok (query : String) (label : Option String)
      (columns : List String) (rows : List (List DbValue))
  | err (query : String) (label : Option String) (error : String)
  deriving Repr, DecidableEq

/-- Running one auto-query config entry: substitute the placeholders, run
the query, and record either the result or the error (the template, not
the substituted query, is recorded, as in the source). -/
def runAutoQuery (w : DbWorld) (query_target table_name : String)
    (qc : AutoQueryConfig) : AutoQueryResult :=
  match w.runQuery (substPlaceholders qc.query query_target table_name) with
  | .ok (columns, rows) => .ok qc.query qc.label columns rows
  | .error e => .err qc.query qc.label e

/-- The semantic context dict `build_semantic_context` returns. -/
structure SemanticContext where
  schema_ddl : String
  column_info : List (String × String)
  auto_query_results : List AutoQueryResult
  hints : List String
  deriving Repr, DecidableEq

/-- Embedding of `build_semantic_context` (`semantic_layer.py:65-146`):
gets the data source, writes the discovered table name back into
`tool_config["database"]["table_name"]` (returned here as the updated
config), introspects the schema with a failure caught into a comment
string, runs the configured auto-queries with each failure caught into an
error entry, attaches the static hints, and closes the connection.  A
`_get_data_source` failure propagates (with that function's trace: the
connection it opened stays open). -/
def build_semantic_context (w : DbWorld) (tool_config : ToolConfig) :
    Except String (SemanticContext × ToolConfig) × List DbEvent :=
  match _get_data_source w tool_config with
  | (.error e, evs) => (.error e, evs)
  | (.ok (con, query_target, table_name), evs) =>
      let tool_config' : ToolConfig :=
        { tool_config with
            database := { tool_config.database with table_name := table_name } }
      let schema :=
        match w.describeRows query_target with
        | .ok columns => (buildDDL table_name columns, columns)
        | .error e => ("-- Schema introspection failed: " ++ e, [])
      let ctx : SemanticContext :=
        { schema_ddl := schema.1,
          column_info := schema.2,
          auto_query_results :=
            tool_config.auto_queries.map (runAutoQuery w query_target table_name),
          hints := tool_config.static_context }
      (.ok (ctx, tool_config'), evs ++ [DbEvent.closeConn con])

/-- Python truthiness of `label or "Auto Query Result"`: `None` and the
empty string fall back to the default. -/
def pyOrStr (s : Option String) (d : String) : String :=
  match s with
  | some l => if l = "" then d else l
  | none => d

/-- A cell of a sample row rendered for the prompt: `None` becomes empty,
strings are quoted with inner quotes doubled, other values are
stringified. -/
def csvCell : DbValue → String
  | .null => ""
  | .str s => "\"" ++ s.replace "\"" "\"\"" ++ "\""
  | .int n => toString n

/-- The lines one auto-query result contributes to the prompt. -/
def autoQueryPart : AutoQueryResult → List String
  | .err _ _ e => ["\n/* Auto query failed: " ++ e ++ " */"]
  | .ok _ label columns rows =>
      ["\n/* " ++ pyOrStr label "Auto Query Result" ++ " */",
       String.intercalate "," columns]
        ++ rows.map (fun row => String.intercalate "," (row.map csvCell))

/-- Embedding of `format_context_for_prompt` (`semantic_layer.py:149-206`):
schema DDL, then each auto-query result as a labelled CSV block (or its
failure comment), then the hints, as one newline-joined string. -/
def format_context_for_prompt (context : SemanticContext)
    (tool_config : Option ToolConfig) : String :=
  let hint_style :=
    match tool_config with
    | some tc => tc.hint_style.getD "sql_comment"
    | none => "sql_comment"
  String.intercalate "\n"
    (["/* Table Schema */", context.schema_ddl]
      ++ (context.auto_query_results.map autoQueryPart).flatten
      ++ (if context.hints ≠ [] then
            ["\n/* Important Notes */"]
              ++ context.hints.map (fun hint =>
                  if hint_style = "sql_comment" then "-- " ++ hint else hint)
          else []))

/-! ## Part 3: the attempt logger `query_logger.py` -/

/-- Behaviour of the log database behind `log_attempt`'s connection: the
`CREATE TABLE IF NOT EXISTS` of `_init_log_table` and the `INSERT INTO
query_log`, each of which may raise. -/
structure LogDbWorld where
  execCreate : Except String Unit
  execInsert : Except String Unit

/-- Embedding of `log_attempt` (`query_logger.py:31-101`): opens a
connection, then inside `try:` creates the log table and inserts the
record, and in `finally:` closes the connection — so the close event is in
the trace on every path, including both failure paths. -/
def log_attempt (w : LogDbWorld) : Except String Unit × List DbEvent :=
  match w.execCreate with
  | .error e => (.error e, [DbEvent.openConn 0, DbEvent.closeConn 0])
  | .ok _ =>
      match w.execInsert with
      | .error e => (.error e, [DbEvent.openConn 0, DbEvent.closeConn 0])
      | .ok _ => (.ok (), [DbEvent.openConn 0, DbEvent.closeConn 0])

/-! ## Part 4: the MCP server glue `server.py` -/

/-- The loaded `config.json` as `server.py` uses it: one tool config per
tool (`log_path` is read from `config["log_query"]["database"]["db_path"]`). -/
structure ServerConfig where
  data_query : ToolConfig
  log_query : ToolConfig
  deriving Repr, DecidableEq

/-- The module-level state `server.py` computes once at import: the log
path, each tool's (mutated) config, and each tool's formatted semantic
context string. -/
structure ServerState where
  log_path : String
  data_tool_config : ToolConfig
  data_semantic_context : String
  log_tool_config : ToolConfig
  log_semantic_context : String
  deriving Repr, DecidableEq

/-- Embedding of `server.py`'s import-time initialisation (lines 12-25):
load the log path, build and format the semantic context for `query_data`,
then for `query_logs`.  Each context is built exactly once, here;
`Except.error` models a startup exception. -/
def serverInit (wData wLog : DbWorld) (config : ServerConfig) :
    Except String ServerState :=
  match build_semantic_context wData config.data_query with
  | (.error e, _) => .error e
  | (.ok (dctx, dcfg), _) =>
      match build_semantic_context wLog config.log_query with
      | (.error e, _) => .error e
      | (.ok (lctx, lcfg), _) =>
          .ok { log_path := config.log_query.database.db_path,
                data_tool_config := dcfg,
                data_semantic_context := format_context_for_prompt dctx (some dcfg),
                log_tool_config := lcfg,
                log_semantic_context := format_context_for_prompt lctx (some lcfg) }

/-- The arguments one tool invocation passes to `execute_with_retry`. -/
structure RetryCallArgs where
  question : String
  semantic_context : String
  tool_config : ToolConfig
  log_path : String
  client_name : String
  user_input : Option String
  deriving Repr, DecidableEq

/-- Embedding of the `query_data` tool body (`server.py:55-87`): the
arguments it passes to `execute_with_retry` on one invocation.  It reads
the module-level `data_semantic_context` unchanged. -/
def query_data_call (s : ServerState) (question : String)
    (user_input : Option String) (client_name : String) : RetryCallArgs :=
  { question := question,
    semantic_context := s.data_semantic_context,
    tool_config := s.data_tool_config,
    log_path := s.log_path,
    client_name := client_name,
    user_input := user_input }

/-- Embedding of the `query_logs` tool body (`server.py:91-131`). -/
def query_logs_call (s : ServerState) (question : String)
    (user_input : Option String) (client_name : String) : RetryCallArgs :=
  { question := question,
    semantic_context := s.log_semantic_context,
    tool_config := s.log_tool_config,
    log_path := s.log_path,
    client_name := client_name,
    user_input := user_input }

/-- The result dict `execute_with_retry` hands to `_format_result`
(`server.py`): `columns`, `rows` and `row_count` may be `None`. -/
structure CallDict where
  success : Bool
  columns : Option (List String)
  rows : Option (List (List DbValue))
  row_count : Option Nat
  sql : String
  retry_count : Nat
  errors : List String
  input_tokens : Nat
  output_tokens : Nat
  elapsed_ms : Nat
  deriving Repr, DecidableEq

/-- The `diagnostics` sub-dict of the MCP response. -/
structure Diagnostics where
  sql : String
  retry_count : Nat
  errors : List String
  input_tokens : Nat
  output_tokens : Nat
  elapsed_ms : Nat
  deriving Repr, DecidableEq

/-- The MCP response shape `_format_result` produces. -/
structure FormattedResult where
  success : Bool
  columns : Option (List String)
  rows : Option (List (List DbValue))
  row_count : Option Nat
  diagnostics : Diagnostics
  deriving Repr, DecidableEq

/-- Python truthiness of `result["rows"]`: `None` and the empty list are
falsy. -/
def pyTruthyRows : Option (List (List DbValue)) → Bool
  | none => false
  | some l => !l.isEmpty

/-- Embedding of `_format_result` (`server.py:36-51`): passes `success`,
`columns` and `row_count` through, slices `rows` to the first 1000 when
`result["rows"]` is truthy and emits `None` otherwise, and copies the six
diagnostics fields. -/
def _format_result (result : CallDict) : FormattedResult :=
  { success := result.success,
    columns := result.columns,
    rows :=
      if pyTruthyRows result.rows
      then result.rows.map (fun l => l.take 1000)
      else none,
    row_count := result.row_count,
    diagnostics :=
      { sql := result.sql,
        retry_count := result.retry_count,
        errors := result.errors,
        input_tokens := result.input_tokens,
        output_tokens := result.output_tokens,
        elapsed_ms := result.elapsed_ms } }

/-! ## Part 5: theorems about the semantic layer, logger and server -/

/-- A tool config pointing at a DuckDB database file with no configured
`table_name`, forcing auto-discovery. -/
def emptyDbToolConfig : ToolConfig :=
  { database := { table_name := "", db_path := "/tmp/healthkit.duckdb", parquet_path := "" },
    auto_queries := [], static_context := [], hint_style := none }

/-- A database file that contains no tables. -/
def emptyDbWorld : DbWorld :=
  { showTables := .ok [],
    describeRows := fun _ => .error "no table",
    runQuery := fun _ => .error "no table" }

/-- C5: the claim fails on the code.  When table auto-discovery raises
(here: a database with zero tables), `_get_data_source` propagates the
`ValueError` with the connection it opened still unclosed — the trace
leaks connection 0.  By contrast `log_attempt` (whose body is wrapped in
`try/finally`) closes its connection on every path, including both of its
failure paths. -/
theorem connection_leak_on_table_discovery_failure :
    ((_get_data_source emptyDbWorld emptyDbToolConfig).1
        = .error "No tables found in database: /tmp/healthkit.duckdb"
      ∧ leakedConns (_get_data_source emptyDbWorld emptyDbToolConfig).2 = [0]
      ∧ ∀ w : LogDbWorld, leakedConns (log_attempt w).2 = []) := by
  refine ⟨rfl, rfl, fun w => ?_⟩
  unfold log_attempt
  cases w.execCreate
  · rfl
  · cases w.execInsert
    · rfl
    · rfl

/-- C6: the semantic context of each tool is computed once, at server
startup, by one `build_semantic_context` + `format_context_for_prompt`
pass, and every invocation of `query_data` / `query_logs` passes that
same stored string to `execute_with_retry`, unchanged across calls. -/
theorem semantic_context_built_once_per_tool (wData wLog : DbWorld)
    (config : ServerConfig) (s : ServerState)
    (h : serverInit wData wLog config = .ok s)
    (q1 q2 : String) (u1 u2 : Option String) (c1 c2 : String) :
    ((query_data_call s q1 u1 c1).semantic_context
        = (query_data_call s q2 u2 c2).semantic_context
      ∧ (query_data_call s q1 u1 c1).semantic_context = s.data_semantic_context
      ∧ (query_logs_call s q1 u1 c1).semantic_context
          = (query_logs_call s q2 u2 c2).semantic_context
      ∧ (query_logs_call s q1 u1 c1).semantic_context = s.log_semantic_context
      ∧ ∃ dctx dcfg lctx lcfg,
          (build_semantic_context wData config.data_query).1 = .ok (dctx, dcfg)
          ∧ s.data_semantic_context = format_context_for_prompt dctx (some dcfg)
          ∧ (build_semantic_context wLog config.log_query).1 = .ok (lctx, lcfg)
          ∧ s.log_semantic_context = format_context_for_prompt lctx (some lcfg)) := by
  refine ⟨rfl, rfl, rfl, rfl, ?_⟩
  unfold serverInit at h
  rcases hd : build_semantic_context wData config.data_query with ⟨dres, devs⟩
  rw [hd] at h
  cases dres with
  | error e => simp at h
  | ok p =>
      obtain ⟨dctx, dcfg⟩ := p
      rcases hl : build_semantic_context wLog config.log_query with ⟨lres, levs⟩
      rw [hl] at h
      cases lres with
      | error e => simp at h
      | ok p2 =>
          obtain ⟨lctx, lcfg⟩ := p2
          simp only [Except.ok.injEq] at h
          refine ⟨dctx, dcfg, lctx, lcfg, rfl, ?_, rfl, ?_⟩
          · rw [← h]
          · rw [← h]

/-- A tool config in parquet mode with no configured `table_name` (the
code then defaults it to `data`). -/
def parquetToolConfig : ToolConfig :=
  { database := { table_name := "", db_path := "", parquet_path := "/tmp/health.parquet" },
    auto_queries := [], static_context := ["steps are daily totals"], hint_style := none }

/-- A parquet file whose schema introspection succeeds. -/
def parquetWorld : DbWorld :=
  { showTables := .ok [],
    describeRows := fun _ => .ok [("date", "DATE"), ("steps", "BIGINT")],
    runQuery := fun _ => .error "not used" }

/-- A tool config for the query-log tool, with a configured table name and
one labelled auto-query. -/
def logToolConfig : ToolConfig :=
  { database := { table_name := "query_log", db_path := "/tmp/query_logs.duckdb", parquet_path := "" },
    auto_queries := [AutoQueryConfig.dict "SELECT COUNT(*) FROM {table_name}" (some "Row count")],
    static_context := [], hint_style := some "plain" }

/-- A log database whose DESCRIBE fails but whose auto-query succeeds. -/
def logWorld : DbWorld :=
  { showTables := .ok ["query_log"],
    describeRows := fun _ => .error "IO Error",
    runQuery := fun _ => .ok (["count"], [[DbValue.int 42]]) }

/-- C6 witness: a concrete startup state exists, and two `query_data`
invocations with different questions, raw inputs and clients pass the
identical context string. -/
theorem semantic_context_built_once_per_tool_witness :
    ∃ s, serverInit parquetWorld logWorld
        { data_query := parquetToolConfig, log_query := logToolConfig } = .ok s
      ∧ (query_data_call s "q1" none "claude").semantic_context
          = (query_data_call s "q2" (some "raw input") "cursor").semantic_context :=
  ⟨_, rfl,
   (semantic_context_built_once_per_tool parquetWorld logWorld
      { data_query := parquetToolConfig, log_query := logToolConfig } _ rfl
      "q1" "q2" none (some "raw input") "claude" "cursor").1⟩

/-- C7: `_format_result` passes `success`, `columns`, `row_count` and the
six diagnostics fields through unchanged, and transports at most the
first 1000 rows (`row_count` stays the uncapped count since it is passed
through untouched). -/
theorem format_result_caps_rows_passes_rest (r : CallDict)
    (l : List (List DbValue)) (h1 : r.rows = some l) (h2 : l ≠ []) :
    ((_format_result r).success = r.success
      ∧ (_format_result r).columns = r.columns
      ∧ (_format_result r).row_count = r.row_count
      ∧ (_format_result r).diagnostics =
          { sql := r.sql, retry_count := r.retry_count, errors := r.errors,
            input_tokens := r.input_tokens, output_tokens := r.output_tokens,
            elapsed_ms := r.elapsed_ms }
      ∧ (_format_result r).rows = some (l.take 1000)
      ∧ (l.take 1000).length ≤ 1000) := by
  refine ⟨rfl, rfl, rfl, rfl, ?_, ?_⟩
  · cases l with
    | nil => exact absurd rfl h2
    | cons a as =>
        unfold _format_result
        simp [pyTruthyRows, h1]
  · simp [List.length_take]

/-- A successful call transporting 1002 rows. -/
def manyRowsDict : CallDict :=
  { success := true, columns := some ["n"],
    rows := some (List.replicate 1002 [DbValue.int 1]),
    row_count := some 1002, sql := "SELECT n FROM t", retry_count := 1,
    errors := ["Parser Error"], input_tokens := 10, output_tokens := 2,
    elapsed_ms := 5 }

/-- C7 witness: on a call with 1002 rows the response carries exactly the
first 1000 rows while `row_count` and the diagnostics pass through. -/
theorem format_result_caps_rows_passes_rest_witness :
    ((_format_result manyRowsDict).success = manyRowsDict.success
      ∧ (_format_result manyRowsDict).columns = manyRowsDict.columns
      ∧ (_format_result manyRowsDict).row_count = manyRowsDict.row_count
      ∧ (_format_result manyRowsDict).diagnostics =
          { sql := manyRowsDict.sql, retry_count := manyRowsDict.retry_count,
            errors := manyRowsDict.errors,
            input_tokens := manyRowsDict.input_tokens,
            output_tokens := manyRowsDict.output_tokens,
            elapsed_ms := manyRowsDict.elapsed_ms }
      ∧ (_format_result manyRowsDict).rows
          = some ((List.replicate 1002 [DbValue.int 1]).take 1000)
      ∧ ((List.replicate 1002 [DbValue.int 1]).take 1000).length ≤ 1000) :=
  format_result_caps_rows_passes_rest manyRowsDict
    (List.replicate 1002 [DbValue.int 1]) rfl
    (List.ne_nil_of_length_pos (by rw [List.length_replicate]; omega))

/-- C8: when the result's `rows` is absent (`None`) or the empty list,
the formatted response's `rows` is `None` — so by the `rows` field alone
a successful zero-row call looks like a failed call. -/
theorem empty_or_absent_rows_format_to_none (r : CallDict)
    (h : r.rows = none ∨ r.rows = some []) :
    (_format_result r).rows = none := by
  unfold _format_result
  rcases h with h | h <;> simp [pyTruthyRows, h]

/-- A successful call that returned zero rows. -/
def zeroRowSuccessDict : CallDict :=
  { success := true, columns := some ["n"], rows := some [],
    row_count := some 0, sql := "SELECT n FROM t WHERE 1=0", retry_count := 0,
    errors := [], input_tokens := 10, output_tokens := 2, elapsed_ms := 5 }

/-- C8 witness: a successful zero-row call formats to `rows = None`. -/
theorem empty_or_absent_rows_format_to_none_witness :
    ((_format_result zeroRowSuccessDict).rows = none
      ∧ zeroRowSuccessDict.success = true) :=
  ⟨empty_or_absent_rows_format_to_none zeroRowSuccessDict (Or.inr rfl), rfl⟩

/-- C9: whenever `_get_data_source` succeeds with table name `tn`,
`build_semantic_context` returns the caller's `tool_config` with
`database.table_name` overwritten by `tn` and every other field unchanged
(the structure-update form says exactly that). -/
theorem build_semantic_context_writes_table_name (w : DbWorld)
    (cfg : ToolConfig) (con : Nat) (qt tn : String)
    (h : (_get_data_source w cfg).1 = .ok (con, qt, tn)) :
    ∃ ctx, (build_semantic_context w cfg).1
      = .ok (ctx, { cfg with
          database := { cfg.database with table_name := tn } }) := by
  unfold build_semantic_context
  rcases hds : _get_data_source w cfg with ⟨fst, snd⟩
  rw [hds] at h
  simp only at h
  subst h
  exact ⟨_, rfl⟩

/-- C9 witness: a parquet-mode config that omitted `table_name` comes back
with `table_name = "data"` written in, and is observably different from
the original config. -/
theorem build_semantic_context_writes_table_name_witness :
    ((∃ ctx, (build_semantic_context parquetWorld parquetToolConfig).1
        = .ok (ctx, { parquetToolConfig with
            database := { parquetToolConfig.database with table_name := "data" } }))
      ∧ { parquetToolConfig with
            database := { parquetToolConfig.database with table_name := "data" } }
          ≠ parquetToolConfig) :=
  ⟨build_semantic_context_writes_table_name parquetWorld parquetToolConfig 0
      "\x27/tmp/health.parquet\x27" "data" rfl,
   by decide⟩

/-- C10: given a data source, `build_semantic_context` always returns a
context (never propagates a schema-introspection or auto-query failure):
a DESCRIBE failure becomes the failure-comment `schema_ddl`, and each
failing auto-query contributes an entry recording its error string. -/
theorem build_semantic_context_catches_failures (w : DbWorld)
    (cfg : ToolConfig) (con : Nat) (qt tn : String)
    (h : (_get_data_source w cfg).1 = .ok (con, qt, tn)) :
    ∃ ctx cfg2, (build_semantic_context w cfg).1 = .ok (ctx, cfg2)
      ∧ (∀ e, w.describeRows qt = .error e →
            ctx.schema_ddl = "-- Schema introspection failed: " ++ e)
      ∧ (∀ qc ∈ cfg.auto_queries,
          ∀ e, w.runQuery (substPlaceholders qc.query qt tn) = .error e →
            AutoQueryResult.err qc.query qc.label e ∈ ctx.auto_query_results) := by
  unfold build_semantic_context
  rcases hds : _get_data_source w cfg with ⟨fst, snd⟩
  rw [hds] at h
  simp only at h
  subst h
  refine ⟨_, _, rfl, ?_, ?_⟩
  · intro e he
    simp [he]
  · intro qc hqc e he
    have hv : runAutoQuery w qt tn qc = .err qc.query qc.label e := by
      simp [runAutoQuery, he]
    simpa [hv] using List.mem_map_of_mem (runAutoQuery w qt tn) hqc

/-- A database whose DESCRIBE and queries all fail (e.g. the table is
gone), behind a db-file config with one legacy-string auto-query. -/
def failingWorld : DbWorld :=
  { showTables := .ok ["hk_data"],
    describeRows := fun _ => .error "Catalog Error: hk_data missing",
    runQuery := fun _ => .error "Parser Error: syntax error" }

/-- The db-file tool config used with `failingWorld`. -/
def failingToolConfig : ToolConfig :=
  { database := { table_name := "", db_path := "/tmp/hk.duckdb", parquet_path := "" },
    auto_queries := [AutoQueryConfig.str "SELECT * FROM {table_name} LIMIT 3"],
    static_context := [], hint_style := none }

/-- C10 witness: against a database where both introspection and the
auto-query fail, the build still returns a context with the failures
embedded as text. -/
theorem build_semantic_context_catches_failures_witness :
    ∃ ctx cfg2,
      (build_semantic_context failingWorld failingToolConfig).1 = .ok (ctx, cfg2)
      ∧ (∀ e, failingWorld.describeRows "hk_data" = .error e →
            ctx.schema_ddl = "-- Schema introspection failed: " ++ e)
      ∧ (∀ qc ∈ failingToolConfig.auto_queries,
          ∀ e, failingWorld.runQuery
              (substPlaceholders qc.query "hk_data" "hk_data") = .error e →
            AutoQueryResult.err qc.query qc.label e ∈ ctx.auto_query_results) :=
  build_semantic_context_catches_failures failingWorld failingToolConfig 0
    "hk_data" "hk_data" rfl

end HealthkitMcp
